import Mathlib

/-!
Verification of the node-diagram canvas in `src/main.rs` (mod `network`).

The program is an iced canvas: a pannable, zoomable viewport over a list of
rectangular nodes, driven by mouse events. We embed the pure core — the
coordinate transform (`visible_region`, `project`), the node store and hit
tester (`get_node_at_screen`), the interaction state machine
(`Network::update`) and the render-cache clearing — as Lean functions over
rational coordinates (`ℚ` stands in for `f32`; all arithmetic in the source
is +, -, *, /, min, max и comparisons, so the algebra carries over exactly).
The iced `Cache` is modelled by the one bit the program uses: whether
`clear` has been called since the last build.
-/

namespace Sword

/-- 2D point / vector (iced `Point` and `Vector`, which the source freely
converts between; both are a pair of coordinates). -/
structure Vec2 where
  x : ℚ
  y : ℚ
deriving DecidableEq

instance : Add Vec2 := ⟨fun a b => ⟨a.x + b.x, a.y + b.y⟩⟩

instance : Sub Vec2 := ⟨fun a b => ⟨a.x - b.x, a.y - b.y⟩⟩

/-- iced `Vector: Mul<f32>` — componentwise scale. -/
instance : HMul Vec2 ℚ Vec2 := ⟨fun v k => ⟨v.x * k, v.y * k⟩⟩

/-- iced `Size`. -/
structure Size where
  width : ℚ
  height : ℚ
deriving DecidableEq

/-- iced `Rectangle`. -/
structure Rect where
  x : ℚ
  y : ℚ
  width : ℚ
  height : ℚ
deriving DecidableEq

/-- iced `Rectangle::contains`: `x <= p.x < x + width` and likewise for `y`. -/
def Rect.contains (r : Rect) (p : Vec2) : Bool :=
  decide (r.x ≤ p.x) && decide (p.x < r.x + r.width) &&
  decide (r.y ≤ p.y) && decide (p.y < r.y + r.height)

/-- iced `Rectangle::position` — the top-left corner. -/
def Rect.position (r : Rect) : Vec2 := ⟨r.x, r.y⟩

/-- iced `Rectangle::center`. -/
def Rect.center (r : Rect) : Vec2 := ⟨r.x + r.width / 2, r.y + r.height / 2⟩

/-- iced `Rectangle::size`. -/
def Rect.size (r : Rect) : Size := ⟨r.width, r.height⟩

/-- iced canvas `Cursor`: an absolute pointer position, or none when the
pointer is outside the window. -/
inductive Cursor where
  | available (position : Vec2)
  | unavailable
deriving DecidableEq

/-- iced `Cursor::position_from(origin)`: the position relative to `origin`. -/
def Cursor.position_from (c : Cursor) (origin : Vec2) : Option Vec2 :=
  match c with
  | .available position => some ⟨position.x - origin.x, position.y - origin.y⟩
  | .unavailable => Option.none

/-- iced `Cursor::is_over(bounds)`. -/
def Cursor.is_over (c : Cursor) (bounds : Rect) : Bool :=
  match c with
  | .available position => bounds.contains position
  | .unavailable => false

/-- iced `Cursor::position_in(bounds)`: the bounds-relative position when the
cursor is over `bounds`, otherwise `none`. -/
def Cursor.position_in (c : Cursor) (bounds : Rect) : Option Vec2 :=
  if c.is_over bounds then c.position_from bounds.position else Option.none

/-- RGB color (iced `Color`; alpha and the draw path do not affect state). -/
structure Color where
  r : ℚ
  g : ℚ
  b : ℚ
deriving DecidableEq

def Color.black : Color := ⟨0, 0, 0⟩

/-- `struct Node` from the source: id, world-space bounds, color, selection. -/
structure Node where
  id : ℕ
  bounds : Rect
  color : Color
  is_selected : Bool
deriving DecidableEq

/-- `Node::set_selected`. -/
def Node.set_selected (n : Node) (selected : Bool) : Node :=
  { n with is_selected := selected }

/-- `Node::set_new_pos`: overwrite `bounds.x`/`bounds.y`. -/
def Node.set_new_pos (n : Node) (new_pos : Vec2) : Node :=
  { n with bounds := { n.bounds with x := new_pos.x, y := new_pos.y } }

/-- `Node::get_pos`. -/
def Node.get_pos (n : Node) : Vec2 := ⟨n.bounds.x, n.bounds.y⟩

/-- `enum Interaction` from the source. -/
inductive Interaction where
  | none
  | panningScreen (translation : Vec2) (start : Vec2)
  | panningNode (node_id : ℕ) (translation : Vec2) (start : Vec2)
deriving DecidableEq

/-- The iced `Cache`, reduced to the bit the program observes: `cleared` is
true when `clear` has been called since the cache was last drawn/built. -/
structure Cache where
  cleared : Bool
deriving DecidableEq

/-- `Cache::clear` — mark the cached geometry stale. -/
def Cache.clear (_ : Cache) : Cache := ⟨true⟩

/-- `struct Network`: the canvas program state. -/
structure Network where
  nodes_cache : Cache
  interaction : Interaction
  translation : Vec2
  scaling : ℚ
  nodes : List Node
deriving DecidableEq

/-- `mouse::Button`. -/
inductive Button where
  | left
  | right
  | middle
  | other (code : ℕ)
deriving DecidableEq

/-- `mouse::ScrollDelta`: both variants carry an `x`/`y` pair and the source
treats them identically. -/
inductive ScrollDelta where
  | lines (x y : ℚ)
  | pixels (x y : ℚ)
deriving DecidableEq

/-- The `y` bound by the source's or-pattern
`ScrollDelta::Lines { y, .. } | ScrollDelta::Pixels { y, .. }`. -/
def ScrollDelta.y : ScrollDelta → ℚ
  | .lines _ y => y
  | .pixels _ y => y

/-- `mouse::Event` — the variants the canvas receives; `cursorEntered` and
`cursorLeft` fall into the source's wildcard arm. -/
inductive MouseEvent where
  | cursorEntered
  | cursorLeft
  | cursorMoved (position : Vec2)
  | buttonPressed (button : Button)
  | buttonReleased (button : Button)
  | wheelScrolled (delta : ScrollDelta)
deriving DecidableEq

/-- canvas `Event` (the source's outer `match` has a wildcard arm for
non-mouse events). -/
inductive Event where
  | mouse (e : MouseEvent)
  | keyboard
deriving DecidableEq

/-- `event::Status`. -/
inductive Status where
  | ignored
  | captured
deriving DecidableEq

/-- `NetworkMessage` (never produced by `update`: every arm yields `None`). -/
inductive NetworkMessage where
  | update
deriving DecidableEq

namespace Network

/-- `Network::MIN_SCALING = 0.1`. -/
def MIN_SCALING : ℚ := 1 / 10

/-- `Network::MAX_SCALING = 2.0`. -/
def MAX_SCALING : ℚ := 2

/-- `Network::new()`: one black node at `(0, 0, 100, 100)`, identity view.
A fresh `Cache` holds no geometry, so it is modelled as cleared. -/
def new : Network :=
  { nodes_cache := ⟨true⟩
    interaction := .none
    translation := ⟨0, 0⟩
    scaling := 1
    nodes := [{ id := 0
                bounds := { x := 0, y := 0, width := 100, height := 100 }
                color := Color.black
                is_selected := false }] }

/-- `struct Region`. -/
structure Region where
  x : ℚ
  y : ℚ
  width : ℚ
  height : ℚ

/-- `Network::visible_region`. -/
def visible_region (n : Network) (size : Size) : Region :=
  let width := size.width / n.scaling
  let height := size.height / n.scaling
  { x := -n.translation.x - width / 2
    y := -n.translation.y - height / 2
    width := width
    height := height }

/-- `Network::project`: screen position → world position. -/
def project (n : Network) (position : Vec2) (size : Size) : Vec2 :=
  let region := n.visible_region size
  ⟨position.x / n.scaling + region.x,
   position.y / n.scaling + region.y⟩

/-- `Network::get_node_at_screen`: id of the first node (in store order)
whose bounds contain the given world position. -/
def get_node_at_screen (n : Network) (position : Vec2) : Option ℕ :=
  (n.nodes.find? (fun node => node.bounds.contains position)).map (fun node => node.id)

/-- `Network::unselect_all_nodes`. -/
def unselect_all_nodes (n : Network) : Network :=
  { n with nodes := n.nodes.map (fun node => node.set_selected false) }

/-- `self.nodes.iter_mut().find(|x| x.id == id)` followed by a mutation of
the found node: rewrite the first list element satisfying `p`. -/
def updateFirst (p : Node → Bool) (f : Node → Node) : List Node → List Node
  | [] => []
  | node :: rest => if p node then f node :: rest else node :: updateFirst p f rest

/-- The `Event::Mouse(mouse::Event::ButtonReleased(_))` prelude of
`Network::update`: any button release resets the interaction, before the
cursor-in-bounds check. -/
def release_step (n : Network) (event : Event) : Network :=
  match event with
  | .mouse (.buttonReleased _) => { n with interaction := .none }
  | _ => n

/-- The `mouse::Event::ButtonPressed` arm of `Network::update`. `node_id` is
the precomputed hit-test result at the projected cursor position. -/
def on_button_pressed (n : Network) (button : Button) (cursor_position : Vec2)
    (node_id : Option ℕ) : Network :=
  match button with
  | .left =>
    let n1 : Network :=
      match node_id with
      | some id =>
        match n.nodes.find? (fun x => x.id == id) with
        | some nd =>
          { n with
            interaction := .panningNode nd.id (Vec2.mk nd.bounds.x nd.bounds.y) cursor_position
            nodes := updateFirst (fun x => x.id == id) (fun x => x.set_selected true) n.nodes }
        | Option.none => n
      | Option.none => n.unselect_all_nodes
    { n1 with nodes_cache := n1.nodes_cache.clear }
  | .middle =>
    { n with interaction := .panningScreen n.translation cursor_position }
  | _ => n

/-- The `mouse::Event::CursorMoved` arm of `Network::update` (state part). -/
def on_cursor_moved (n : Network) (cursor_position : Vec2) : Network :=
  match n.interaction with
  | .panningScreen translation start =>
    { n with
      translation := translation + (cursor_position - start) * (1 / n.scaling)
      nodes_cache := n.nodes_cache.clear }
  | .panningNode node_id translation start =>
    match n.nodes.find? (fun x => x.id == node_id) with
    | some _ =>
      { n with
        nodes := updateFirst (fun x => x.id == node_id)
          (fun x => x.set_new_pos (translation + (cursor_position - start) * (1 / n.scaling)))
          n.nodes
        nodes_cache := n.nodes_cache.clear }
    | Option.none => n
  | .none => n

/-- The `mouse::Event::WheelScrolled` arm of `Network::update`: clamp-guarded
zoom and cursor-anchored translation correction. -/
def on_wheel_scrolled (n : Network) (y : ℚ) (bounds : Rect) (cursor : Cursor) : Network :=
  if (y < 0 ∧ MIN_SCALING < n.scaling) ∨ (0 < y ∧ n.scaling < MAX_SCALING) then
    let old_scaling := n.scaling
    let n1 := { n with scaling := min (max (n.scaling * (1 + y / 30)) MIN_SCALING) MAX_SCALING }
    let n2 :=
      match cursor.position_from bounds.center with
      | some cursor_to_center =>
        let factor := n1.scaling - old_scaling
        { n1 with
          translation := n1.translation -
            Vec2.mk (cursor_to_center.x * factor / (old_scaling * old_scaling))
              (cursor_to_center.y * factor / (old_scaling * old_scaling)) }
      | Option.none => n1
    { n2 with nodes_cache := n2.nodes_cache.clear }
  else n

/-- Result of one `Program::update` call: the new state together with the
returned `(event::Status, Option<NetworkMessage>)` pair. -/
structure UpdateResult where
  network : Network
  status : Status
  message : Option NetworkMessage
deriving DecidableEq

/-- `<Network as Program>::update`, assembled exactly in source order:
release prelude, cursor-in-bounds early return, hit test, then the event
dispatch. -/
def update (n0 : Network) (event : Event) (bounds : Rect) (cursor : Cursor) : UpdateResult :=
  let n := n0.release_step event
  match cursor.position_in bounds with
  | Option.none => ⟨n, .ignored, Option.none⟩
  | some cursor_position =>
    let node_id := n.get_node_at_screen (n.project cursor_position bounds.size)
    match event with
    | .mouse me =>
      match me with
      | .buttonPressed button =>
        ⟨n.on_button_pressed button cursor_position node_id, .captured, Option.none⟩
      | .cursorMoved _ =>
        let n1 := n.on_cursor_moved cursor_position
        ⟨n1, match n1.interaction with | .none => Status.ignored | _ => Status.captured,
         Option.none⟩
      | .wheelScrolled delta =>
        let y := match delta with | .lines _ y => y | .pixels _ y => y
        ⟨n.on_wheel_scrolled y bounds cursor, .captured, Option.none⟩
      | _ => ⟨n, .ignored, Option.none⟩
    | _ => ⟨n, .ignored, Option.none⟩

/-- The transform `draw` applies to the node layer before drawing a node
(first loop iteration): `frame.translate(center)`, `frame.scale(scaling)`,
`frame.translate(translation)`, i.e. `screen = scaling * (w + translation)
+ center`. -/
def draw_transform (n : Network) (size : Size) (w : Vec2) : Vec2 :=
  let center : Vec2 := ⟨size.width / 2, size.height / 2⟩
  ⟨(w.x + n.translation.x) * n.scaling + center.x,
   (w.y + n.translation.y) * n.scaling + center.y⟩

/-- The state components that affect the drawn node layer: translation,
scaling, and each node's position and selection flag. -/
def drawn_state (n : Network) : Vec2 × ℚ × List (ℚ × ℚ × Bool) :=
  (n.translation, n.scaling, n.nodes.map (fun nd => (nd.bounds.x, nd.bounds.y, nd.is_selected)))

/-! ### Helper lemmas about the node store -/

end Network

@[simp] theorem Vec2.add_x (a b : Vec2) : (a + b).x = a.x + b.x := rfl

@[simp] theorem Vec2.add_y (a b : Vec2) : (a + b).y = a.y + b.y := rfl

@[simp] theorem Vec2.sub_x (a b : Vec2) : (a - b).x = a.x - b.x := rfl

@[simp] theorem Vec2.sub_y (a b : Vec2) : (a - b).y = a.y - b.y := rfl

@[simp] theorem Vec2.smul_x (a : Vec2) (k : ℚ) : (a * k).x = a.x * k := rfl

@[simp] theorem Vec2.smul_y (a : Vec2) (k : ℚ) : (a * k).y = a.y * k := rfl

@[simp] theorem Vec2.mk_add_mk (a b c d : ℚ) :
    (Vec2.mk a b) + (Vec2.mk c d) = ⟨a + c, b + d⟩ := rfl

@[simp] theorem Vec2.mk_sub_mk (a b c d : ℚ) :
    (Vec2.mk a b) - (Vec2.mk c d) = ⟨a - c, b - d⟩ := rfl

@[simp] theorem Vec2.mk_smul (a b k : ℚ) : (Vec2.mk a b) * k = ⟨a * k, b * k⟩ := rfl

@[simp] theorem ScrollDelta.y_lines (x y : ℚ) : (ScrollDelta.lines x y).y = y := rfl

@[simp] theorem ScrollDelta.y_pixels (x y : ℚ) : (ScrollDelta.pixels x y).y = y := rfl

namespace Network

theorem find?_updateFirst {q : Node → Bool} {f : Node → Node} {l : List Node} {a : Node}
    (h : l.find? q = some a) (hf : q (f a) = true) :
    (updateFirst q f l).find? q = some (f a) := by
  induction l with
  | nil => simp at h
  | cons x xs ih =>
    by_cases hx : q x
    · simp only [List.find?, hx] at h
      cases h
      simp [updateFirst, hx, List.find?, hf]
    · simp only [List.find?, hx] at h
      simp [updateFirst, hx, List.find?, ih h]

theorem updateFirst_eq_set {q : Node → Bool} {f : Node → Node} {l : List Node} {a : Node}
    (h : l.find? q = some a) :
    ∃ i, ∃ hi : i < l.length, l.get ⟨i, hi⟩ = a ∧ updateFirst q f l = l.set i (f a) := by
  induction l with
  | nil => simp at h
  | cons x xs ih =>
    by_cases hx : q x
    · simp only [List.find?, hx] at h
      cases h
      exact ⟨0, by simp, rfl, by simp [updateFirst, hx]⟩
    · simp only [List.find?, hx] at h
      obtain ⟨i, hi, hget, hset⟩ := ih h
      exact ⟨i + 1, by simpa using Nat.succ_lt_succ hi, hget, by simp [updateFirst, hx, hset]⟩

theorem find?_id_of_nodup {l : List Node} {a : Node}
    (hn : (l.map Node.id).Nodup) (ha : a ∈ l) :
    l.find? (fun x => x.id == a.id) = some a := by
  induction l with
  | nil => cases ha
  | cons x xs ih =>
    rcases List.mem_cons.mp ha with rfl | hmem
    · simp [List.find?]
    · have hnx : x.id ∉ xs.map Node.id := (List.nodup_cons.mp hn).1
      have hne : (x.id == a.id) = false := by
        refine beq_eq_false_iff_ne.mpr (fun hxa => hnx ?_)
        exact hxa ▸ List.mem_map_of_mem Node.id hmem
      simp [List.find?, hne, ih (List.nodup_cons.mp hn).2 hmem]

/-! ### Field-preservation lemmas for the update handlers -/

theorem release_step_translation (n : Network) (e : Event) :
    (n.release_step e).translation = n.translation := by
  unfold release_step; split <;> rfl

theorem release_step_scaling (n : Network) (e : Event) :
    (n.release_step e).scaling = n.scaling := by
  unfold release_step; split <;> rfl

theorem release_step_nodes (n : Network) (e : Event) :
    (n.release_step e).nodes = n.nodes := by
  unfold release_step; split <;> rfl

theorem release_step_cache (n : Network) (e : Event) :
    (n.release_step e).nodes_cache = n.nodes_cache := by
  unfold release_step; split <;> rfl

theorem on_button_pressed_scaling (n : Network) (btn : Button) (cp : Vec2) (nid : Option ℕ) :
    (n.on_button_pressed btn cp nid).scaling = n.scaling := by
  unfold on_button_pressed
  cases btn <;> simp only []
  case left =>
    cases nid with
    | none => rfl
    | some id => cases hf : n.nodes.find? (fun x => x.id == id) <;> simp [hf]

theorem on_button_pressed_translation (n : Network) (btn : Button) (cp : Vec2) (nid : Option ℕ) :
    (n.on_button_pressed btn cp nid).translation = n.translation := by
  unfold on_button_pressed
  cases btn <;> simp only []
  case left =>
    cases nid with
    | none => rfl
    | some id => cases hf : n.nodes.find? (fun x => x.id == id) <;> simp [hf]

theorem on_cursor_moved_scaling (n : Network) (cp : Vec2) :
    (n.on_cursor_moved cp).scaling = n.scaling := by
  unfold on_cursor_moved
  split
  · rfl
  · split <;> rfl
  · rfl

theorem on_cursor_moved_interaction (n : Network) (cp : Vec2) :
    (n.on_cursor_moved cp).interaction = n.interaction := by
  unfold on_cursor_moved
  split
  · rfl
  · split <;> rfl
  · rfl

theorem on_wheel_scrolled_scaling (n : Network) (y : ℚ) (b : Rect) (c : Cursor) :
    (n.on_wheel_scrolled y b c).scaling = n.scaling ∨
      (n.on_wheel_scrolled y b c).scaling =
        min (max (n.scaling * (1 + y / 30)) MIN_SCALING) MAX_SCALING := by
  unfold on_wheel_scrolled
  split
  · right
    cases hc : c.position_from b.center <;> simp [hc]
  · left; rfl

theorem on_wheel_scrolled_nodes (n : Network) (y : ℚ) (b : Rect) (c : Cursor) :
    (n.on_wheel_scrolled y b c).nodes = n.nodes := by
  unfold on_wheel_scrolled
  split
  · cases hc : c.position_from b.center <;> simp [hc]
  · rfl

theorem on_wheel_scrolled_interaction (n : Network) (y : ℚ) (b : Rect) (c : Cursor) :
    (n.on_wheel_scrolled y b c).interaction = n.interaction := by
  unfold on_wheel_scrolled
  split
  · cases hc : c.position_from b.center <;> simp [hc]
  · rfl

theorem on_cursor_moved_cache_or_eq (n : Network) (cp : Vec2) :
    (n.on_cursor_moved cp).nodes_cache.cleared = true ∨ n.on_cursor_moved cp = n := by
  unfold on_cursor_moved
  split
  · left; rfl
  · split
    · left; rfl
    · right; rfl
  · right; rfl

theorem on_wheel_scrolled_cache_or_eq (n : Network) (y : ℚ) (b : Rect) (c : Cursor) :
    (n.on_wheel_scrolled y b c).nodes_cache.cleared = true ∨ n.on_wheel_scrolled y b c = n := by
  unfold on_wheel_scrolled
  split
  · left
    cases hc : c.position_from b.center <;> simp [hc, Cache.clear]
  · right; rfl

theorem on_button_pressed_left_cache (n : Network) (cp : Vec2) (nid : Option ℕ) :
    (n.on_button_pressed .left cp nid).nodes_cache.cleared = true := rfl

theorem on_button_pressed_middle_eq (n : Network) (cp : Vec2) (nid : Option ℕ) :
    n.on_button_pressed .middle cp nid =
      { n with interaction := .panningScreen n.translation cp } := rfl

/-- Across one `update` call, either the render cache has been cleared or
none of translation, scaling, node store and cache were touched. -/
theorem update_cache_or_unchanged (n : Network) (e : Event) (b : Rect) (c : Cursor) :
    ((n.update e b c).network.nodes_cache.cleared = true) ∨
      ((n.update e b c).network.translation = n.translation ∧
       (n.update e b c).network.scaling = n.scaling ∧
       (n.update e b c).network.nodes = n.nodes ∧
       (n.update e b c).network.nodes_cache = n.nodes_cache) := by
  unfold update
  cases hcp : c.position_in b with
  | none =>
    right
    simp [hcp, release_step_translation, release_step_scaling, release_step_nodes,
      release_step_cache]
  | some cp =>
    cases e with
    | keyboard => right; simp [hcp, release_step]
    | mouse me =>
      cases me with
      | cursorEntered => right; simp [hcp, release_step]
      | cursorLeft => right; simp [hcp, release_step]
      | buttonReleased btn =>
        right
        simp [hcp, release_step_translation, release_step_scaling, release_step_nodes,
          release_step_cache]
      | buttonPressed btn =>
        cases btn with
        | left => left; simp [hcp, release_step, on_button_pressed_left_cache]
        | middle => right; simp [hcp, release_step, on_button_pressed_middle_eq]
        | right => right; simp [hcp, release_step, on_button_pressed]
        | other code => right; simp [hcp, release_step, on_button_pressed]
      | cursorMoved pos =>
        rcases on_cursor_moved_cache_or_eq n cp with h | h
        · left; simp [hcp, release_step]; simpa [release_step] using h
        · right; simp [hcp, release_step, h]
      | wheelScrolled delta =>
        cases delta with
        | lines x y =>
          rcases on_wheel_scrolled_cache_or_eq n y b c with h | h
          · left; simp [hcp, release_step]; simpa [release_step] using h
          · right; simp [hcp, release_step, h]
        | pixels x y =>
          rcases on_wheel_scrolled_cache_or_eq n y b c with h | h
          · left; simp [hcp, release_step]; simpa [release_step] using h
          · right; simp [hcp, release_step, h]

/-- The scaling after any `update` call: untouched, or clamped into
`[MIN_SCALING, MAX_SCALING]` by the wheel handler. -/
theorem update_scaling_cases (n : Network) (e : Event) (b : Rect) (c : Cursor) :
    (n.update e b c).network.scaling = n.scaling ∨
      ∃ y, (n.update e b c).network.scaling =
        min (max (n.scaling * (1 + y / 30)) MIN_SCALING) MAX_SCALING := by
  unfold update
  cases hcp : c.position_in b with
  | none => left; simp [hcp, release_step_scaling]
  | some cp =>
    cases e with
    | keyboard => left; simp [hcp, release_step]
    | mouse me =>
      cases me with
      | cursorEntered => left; simp [hcp, release_step]
      | cursorLeft => left; simp [hcp, release_step]
      | buttonReleased btn => left; simp [hcp, release_step_scaling]
      | buttonPressed btn =>
        left; simp [hcp, release_step, on_button_pressed_scaling]
      | cursorMoved pos =>
        left; simp [hcp, release_step, on_cursor_moved_scaling]
      | wheelScrolled delta =>
        cases delta with
        | lines x y =>
          rcases on_wheel_scrolled_scaling n y b c with h | h
          · left; simp [hcp, release_step]; simpa [release_step] using h
          · right; exact ⟨y, by simp [hcp, release_step]; simpa [release_step] using h⟩
        | pixels x y =>
          rcases on_wheel_scrolled_scaling n y b c with h | h
          · left; simp [hcp, release_step]; simpa [release_step] using h
          · right; exact ⟨y, by simp [hcp, release_step]; simpa [release_step] using h⟩

/-- `update` never produces a message: every arm of the source returns
`None`. -/
theorem update_message (n : Network) (e : Event) (b : Rect) (c : Cursor) :
    (n.update e b c).message = Option.none := by
  unfold update
  cases hcp : c.position_in b with
  | none => simp [hcp]
  | some cp =>
    cases e with
    | keyboard => simp [hcp]
    | mouse me => cases me <;> simp [hcp]

theorem MIN_SCALING_pos : (0 : ℚ) < MIN_SCALING := by norm_num [MIN_SCALING]

/-! ### Claims -/

/-- C1: The viewport scaling factor lies in [0.1, 2.0] in every reachable
state: the initial scaling is 1.0, and every event handled by the
interaction state machine (button press, button release, cursor move,
wheel scroll) preserves `0.1 ≤ scaling ≤ 2.0`; in particular scaling never
reaches 0. -/
theorem scaling_invariant (n : Network) (e : Event) (b : Rect) (c : Cursor)
    (h : MIN_SCALING ≤ n.scaling ∧ n.scaling ≤ MAX_SCALING) :
    Network.new.scaling = 1 ∧
    MIN_SCALING ≤ (n.update e b c).network.scaling ∧
    (n.update e b c).network.scaling ≤ MAX_SCALING ∧
    (n.update e b c).network.scaling ≠ 0 := by
  refine ⟨rfl, ?_⟩
  rcases update_scaling_cases n e b c with hs | ⟨y, hs⟩
  · rw [hs]
    exact ⟨h.1, h.2, ne_of_gt (lt_of_lt_of_le MIN_SCALING_pos h.1)⟩
  · rw [hs]
    have hmin : MIN_SCALING ≤ min (max (n.scaling * (1 + y / 30)) MIN_SCALING) MAX_SCALING :=
      le_min (le_max_right _ _) (by norm_num [MIN_SCALING, MAX_SCALING])
    exact ⟨hmin, min_le_right _ _, ne_of_gt (lt_of_lt_of_le MIN_SCALING_pos hmin)⟩

/-- Witness for C1 at a concrete zoom-in step from the initial state. -/
theorem scaling_invariant_witness :
    (MIN_SCALING ≤ Network.new.scaling ∧ Network.new.scaling ≤ MAX_SCALING) ∧
    (Network.new.scaling = 1 ∧
     MIN_SCALING ≤ ((Network.new.update (.mouse (.wheelScrolled (.lines 0 15)))
        ⟨0, 0, 800, 600⟩ (.available ⟨500, 300⟩)).network.scaling) ∧
     (Network.new.update (.mouse (.wheelScrolled (.lines 0 15)))
        ⟨0, 0, 800, 600⟩ (.available ⟨500, 300⟩)).network.scaling ≤ MAX_SCALING ∧
     (Network.new.update (.mouse (.wheelScrolled (.lines 0 15)))
        ⟨0, 0, 800, 600⟩ (.available ⟨500, 300⟩)).network.scaling ≠ 0) :=
  ⟨by norm_num [MIN_SCALING, MAX_SCALING, new],
   scaling_invariant Network.new (.mouse (.wheelScrolled (.lines 0 15)))
     ⟨0, 0, 800, 600⟩ (.available ⟨500, 300⟩)
     (by norm_num [MIN_SCALING, MAX_SCALING, new])⟩

/-- C7: `project` is the exact inverse of the draw-time transform
`screen = scaling * (w + translation) + center`: for every scaling in
[0.1, 2.0], every translation, viewport size, world point `w` and screen
point `p`, `project (draw_transform w) = w` and
`draw_transform (project p) = p`. -/
theorem project_draw_inverse (n : Network) (size : Size) (w p : Vec2)
    (h : MIN_SCALING ≤ n.scaling ∧ n.scaling ≤ MAX_SCALING) :
    n.project (n.draw_transform size w) size = w ∧
    n.draw_transform size (n.project p size) = p := by
  have hs : n.scaling ≠ 0 := ne_of_gt (lt_of_lt_of_le MIN_SCALING_pos h.1)
  unfold draw_transform project visible_region
  constructor
  · cases w with
    | mk wx wy =>
      simp only [Vec2.mk.injEq]
      constructor <;> (field_simp; ring)
  · cases p with
    | mk px py =>
      simp only [Vec2.mk.injEq]
      constructor <;> (field_simp; ring)

/-- Witness for C7 at the initial state, an 800×600 viewport and concrete
points. -/
theorem project_draw_inverse_witness :
    (MIN_SCALING ≤ Network.new.scaling ∧ Network.new.scaling ≤ MAX_SCALING) ∧
    (Network.new.project (Network.new.draw_transform ⟨800, 600⟩ ⟨50, 50⟩) ⟨800, 600⟩ = ⟨50, 50⟩ ∧
     Network.new.draw_transform ⟨800, 600⟩ (Network.new.project ⟨450, 350⟩ ⟨800, 600⟩) =
       ⟨450, 350⟩) :=
  ⟨by norm_num [MIN_SCALING, MAX_SCALING, new],
   project_draw_inverse Network.new ⟨800, 600⟩ ⟨50, 50⟩ ⟨450, 350⟩
     (by norm_num [MIN_SCALING, MAX_SCALING, new])⟩

/-- C8: Render-cache invalidation invariant: if one `update` call changes
the translation, the scaling, any node's position or any node's selection
flag, then that same call leaves the render cache cleared (dirty). -/
theorem cache_invalidation (n : Network) (e : Event) (b : Rect) (c : Cursor)
    (h : (n.update e b c).network.drawn_state ≠ n.drawn_state) :
    (n.update e b c).network.nodes_cache.cleared = true := by
  rcases update_cache_or_unchanged n e b c with hc | ⟨h1, h2, h3, h4⟩
  · exact hc
  · exact absurd (by simp [drawn_state, h1, h2, h3]) h

/-- Witness for C8 at a concrete zoom step that changes the scaling. -/
theorem cache_invalidation_witness :
    ((Network.new.update (.mouse (.wheelScrolled (.lines 0 15)))
        ⟨0, 0, 800, 600⟩ (.available ⟨500, 300⟩)).network.drawn_state ≠
      Network.new.drawn_state) ∧
    (Network.new.update (.mouse (.wheelScrolled (.lines 0 15)))
        ⟨0, 0, 800, 600⟩ (.available ⟨500, 300⟩)).network.nodes_cache.cleared = true :=
  ⟨by norm_num [drawn_state, update, release_step, on_wheel_scrolled,
     Cursor.position_in, Cursor.is_over, Cursor.position_from, Rect.contains,
     Rect.position, Rect.center, Rect.size, MIN_SCALING, MAX_SCALING,
     get_node_at_screen, project, visible_region, List.find?, new, min_def, max_def],
   cache_invalidation Network.new (.mouse (.wheelScrolled (.lines 0 15)))
     ⟨0, 0, 800, 600⟩ (.available ⟨500, 300⟩)
     (by norm_num [drawn_state, update, release_step, on_wheel_scrolled,
       Cursor.position_in, Cursor.is_over, Cursor.position_from, Rect.contains,
       Rect.position, Rect.center, Rect.size, MIN_SCALING, MAX_SCALING,
       get_node_at_screen, project, visible_region, List.find?, new, min_def, max_def])⟩

/-- C9: Stale-reference handling is an atomic no-op: when the interaction is
`PanningNode` with an id that resolves to no node in the store and a cursor
move arrives with the cursor in bounds, the state is unchanged (node store,
translation, scaling, render cache), the event is reported `Captured`, and
the interaction remains the same `PanningNode`. -/
theorem stale_node_noop (n : Network) (b : Rect) (c : Cursor) (q cp : Vec2)
    (pid : ℕ) (tr st : Vec2)
    (hint : n.interaction = .panningNode pid tr st)
    (hmiss : n.nodes.find? (fun x => x.id == pid) = Option.none)
    (hcp : c.position_in b = some cp) :
    (n.update (.mouse (.cursorMoved q)) b c).network = n ∧
    (n.update (.mouse (.cursorMoved q)) b c).status = .captured ∧
    (n.update (.mouse (.cursorMoved q)) b c).network.interaction =
      .panningNode pid tr st := by
  have hm : n.on_cursor_moved cp = n := by
    unfold on_cursor_moved
    rw [hint]
    simp [hmiss]
  refine ⟨?_, ?_, ?_⟩
  · simp [update, hcp, release_step, hm]
  · simp [update, hcp, release_step, hm, hint]
  · simp [update, hcp, release_step, hm, hint]

/-- Witness for C9: a `PanningNode` interaction holding the id 99, absent
from the store. -/
theorem stale_node_noop_witness :
    ({ Network.new with interaction := .panningNode 99 ⟨1, 2⟩ ⟨3, 4⟩ } : Network).interaction =
      .panningNode 99 ⟨1, 2⟩ ⟨3, 4⟩ ∧
    ({ Network.new with interaction := .panningNode 99 ⟨1, 2⟩ ⟨3, 4⟩ } : Network).nodes.find?
      (fun x => x.id == 99) = Option.none ∧
    (Cursor.available ⟨450, 350⟩).position_in ⟨0, 0, 800, 600⟩ = some ⟨450, 350⟩ ∧
    (({ Network.new with interaction := .panningNode 99 ⟨1, 2⟩ ⟨3, 4⟩ } : Network).update
        (.mouse (.cursorMoved ⟨450, 350⟩)) ⟨0, 0, 800, 600⟩
        (.available ⟨450, 350⟩)).network =
      { Network.new with interaction := .panningNode 99 ⟨1, 2⟩ ⟨3, 4⟩ } ∧
    (({ Network.new with interaction := .panningNode 99 ⟨1, 2⟩ ⟨3, 4⟩ } : Network).update
        (.mouse (.cursorMoved ⟨450, 350⟩)) ⟨0, 0, 800, 600⟩
        (.available ⟨450, 350⟩)).status = .captured ∧
    (({ Network.new with interaction := .panningNode 99 ⟨1, 2⟩ ⟨3, 4⟩ } : Network).update
        (.mouse (.cursorMoved ⟨450, 350⟩)) ⟨0, 0, 800, 600⟩
        (.available ⟨450, 350⟩)).network.interaction = .panningNode 99 ⟨1, 2⟩ ⟨3, 4⟩ :=
  ⟨rfl, by simp [new, List.find?],
   by norm_num [Cursor.position_in, Cursor.is_over, Cursor.position_from, Rect.contains,
     Rect.position],
   stale_node_noop _ ⟨0, 0, 800, 600⟩ (.available ⟨450, 350⟩) ⟨450, 350⟩ ⟨450, 350⟩
     99 ⟨1, 2⟩ ⟨3, 4⟩ rfl (by simp [new, List.find?])
     (by norm_num [Cursor.position_in, Cursor.is_over, Cursor.position_from, Rect.contains,
       Rect.position])⟩

/-- C10: Whenever the hit test returns `some id` on a left press with the
cursor in bounds, the subsequent lookup of that id in the node store
succeeds (the error branch is unreachable), and the press both sets the
interaction to `PanningNode` and selects the node. -/
theorem hit_lookup_total (n : Network) (b : Rect) (c : Cursor) (cp : Vec2) (id : ℕ)
    (hcp : c.position_in b = some cp)
    (hhit : n.get_node_at_screen (n.project cp b.size) = some id) :
    ∃ nd, n.nodes.find? (fun x => x.id == id) = some nd ∧
      (n.update (.mouse (.buttonPressed .left)) b c).network.interaction =
        .panningNode nd.id ⟨nd.bounds.x, nd.bounds.y⟩ cp ∧
      (n.update (.mouse (.buttonPressed .left)) b c).network.nodes.find?
        (fun x => x.id == nd.id) = some (nd.set_selected true) := by
  obtain ⟨m, hm, hmid⟩ : ∃ m,
      n.nodes.find? (fun x => x.bounds.contains (n.project cp b.size)) = some m ∧
      m.id = id := by
    unfold get_node_at_screen at hhit
    cases hf : n.nodes.find? (fun x => x.bounds.contains (n.project cp b.size)) with
    | none => rw [hf] at hhit; simp at hhit
    | some m => rw [hf] at hhit; simp at hhit; exact ⟨m, rfl, hhit⟩
  have hsome : (n.nodes.find? (fun x => x.id == id)).isSome := by
    rw [List.find?_isSome]
    exact ⟨m, List.mem_of_find?_eq_some hm, by simp [hmid]⟩
  obtain ⟨nd, hnd⟩ := Option.isSome_iff_exists.mp hsome
  have hndid : nd.id = id := by simpa using List.find?_some hnd
  subst hndid
  refine ⟨nd, hnd, ?_, ?_⟩
  · simp [update, hcp, release_step, on_button_pressed, hhit, hnd]
  · have hfu := find?_updateFirst (f := fun x => x.set_selected true) hnd
      (by simp [Node.set_selected])
    simp [update, hcp, release_step, on_button_pressed, hhit, hnd, hfu]

/-- Witness for C10: the initial store, a click over the single node. -/
theorem hit_lookup_total_witness :
    (Cursor.available ⟨450, 350⟩).position_in ⟨0, 0, 800, 600⟩ = some ⟨450, 350⟩ ∧
    Network.new.get_node_at_screen
      (Network.new.project ⟨450, 350⟩ (Rect.size ⟨0, 0, 800, 600⟩)) = some 0 ∧
    (∃ nd, Network.new.nodes.find? (fun x => x.id == 0) = some nd ∧
      (Network.new.update (.mouse (.buttonPressed .left)) ⟨0, 0, 800, 600⟩
        (.available ⟨450, 350⟩)).network.interaction =
        .panningNode nd.id ⟨nd.bounds.x, nd.bounds.y⟩ ⟨450, 350⟩ ∧
      (Network.new.update (.mouse (.buttonPressed .left)) ⟨0, 0, 800, 600⟩
        (.available ⟨450, 350⟩)).network.nodes.find?
        (fun x => x.id == nd.id) = some (nd.set_selected true)) :=
  ⟨by norm_num [Cursor.position_in, Cursor.is_over, Cursor.position_from, Rect.contains,
     Rect.position],
   by norm_num [get_node_at_screen, project, visible_region, new, List.find?,
     Rect.contains, Rect.size],
   hit_lookup_total Network.new ⟨0, 0, 800, 600⟩ (.available ⟨450, 350⟩) ⟨450, 350⟩ 0
     (by norm_num [Cursor.position_in, Cursor.is_over, Cursor.position_from, Rect.contains,
       Rect.position])
     (by norm_num [get_node_at_screen, project, visible_region, new, List.find?,
       Rect.contains, Rect.size])⟩

/-- C3 counterexample: with the cursor in bounds, a button release is
reported `Ignored`, not `Captured` — the claim's release clause fails. -/
theorem event_status_cex :
    (Cursor.available ⟨450, 350⟩).position_in ⟨0, 0, 800, 600⟩ = some ⟨450, 350⟩ ∧
    (Network.new.update (.mouse (.buttonReleased .left)) ⟨0, 0, 800, 600⟩
      (.available ⟨450, 350⟩)).status = .ignored ∧
    Status.ignored ≠ Status.captured := by
  refine ⟨?_, ?_, by decide⟩
  · norm_num [Cursor.position_in, Cursor.is_over, Cursor.position_from, Rect.contains,
      Rect.position]
  · norm_num [update, release_step, Cursor.position_in, Cursor.is_over,
      Cursor.position_from, Rect.contains, Rect.position]

/-- C3 (amended): with the cursor in bounds, a button press (any button), a
cursor move during `PanningScreen` or `PanningNode`, and a wheel scroll are
reported `Captured`, and a cursor move while Idle is reported `Ignored`;
but a button release is reported `Ignored` (after clearing the interaction
it falls into the source's wildcard match arm). -/
theorem event_status_amended (n : Network) (b : Rect) (c : Cursor) (cp q : Vec2)
    (hcp : c.position_in b = some cp) :
    (∀ btn, (n.update (.mouse (.buttonPressed btn)) b c).status = .captured) ∧
    (∀ delta, (n.update (.mouse (.wheelScrolled delta)) b c).status = .captured) ∧
    (n.interaction ≠ .none → (n.update (.mouse (.cursorMoved q)) b c).status = .captured) ∧
    (n.interaction = .none → (n.update (.mouse (.cursorMoved q)) b c).status = .ignored) ∧
    (∀ btn, (n.update (.mouse (.buttonReleased btn)) b c).status = .ignored) := by
  refine ⟨?_, ?_, ?_, ?_, ?_⟩
  · intro btn; simp [update, hcp]
  · intro delta; cases delta <;> simp [update, hcp]
  · intro hni
    cases hi : n.interaction with
    | none => exact absurd hi hni
    | panningScreen tr st =>
      simp [update, hcp, release_step, on_cursor_moved_interaction, hi]
    | panningNode nid tr st =>
      simp [update, hcp, release_step, on_cursor_moved_interaction, hi]
  · intro hi; simp [update, hcp, release_step, on_cursor_moved_interaction, hi]
  · intro btn; simp [update, hcp]

/-- Witness for C3 (amended) at the initial, idle state. -/
theorem event_status_amended_witness :
    (Cursor.available ⟨450, 350⟩).position_in ⟨0, 0, 800, 600⟩ = some ⟨450, 350⟩ ∧
    ((∀ btn, (Network.new.update (.mouse (.buttonPressed btn)) ⟨0, 0, 800, 600⟩
        (.available ⟨450, 350⟩)).status = .captured) ∧
     (∀ delta, (Network.new.update (.mouse (.wheelScrolled delta)) ⟨0, 0, 800, 600⟩
        (.available ⟨450, 350⟩)).status = .captured) ∧
     (Network.new.interaction ≠ .none →
       (Network.new.update (.mouse (.cursorMoved ⟨460, 350⟩)) ⟨0, 0, 800, 600⟩
         (.available ⟨450, 350⟩)).status = .captured) ∧
     (Network.new.interaction = .none →
       (Network.new.update (.mouse (.cursorMoved ⟨460, 350⟩)) ⟨0, 0, 800, 600⟩
         (.available ⟨450, 350⟩)).status = .ignored) ∧
     (∀ btn, (Network.new.update (.mouse (.buttonReleased btn)) ⟨0, 0, 800, 600⟩
        (.available ⟨450, 350⟩)).status = .ignored)) :=
  ⟨by norm_num [Cursor.position_in, Cursor.is_over, Cursor.position_from, Rect.contains,
     Rect.position],
   event_status_amended Network.new ⟨0, 0, 800, 600⟩ (.available ⟨450, 350⟩)
     ⟨450, 350⟩ ⟨460, 350⟩
     (by norm_num [Cursor.position_in, Cursor.is_over, Cursor.position_from, Rect.contains,
       Rect.position])⟩

/-- C4 counterexample: a button release delivered while the cursor position
is unavailable still clears the interaction — the state is not unchanged. -/
theorem out_of_bounds_cex :
    Cursor.unavailable.position_in ⟨0, 0, 800, 600⟩ = Option.none ∧
    ({ Network.new with interaction := .panningScreen ⟨0, 0⟩ ⟨0, 0⟩ } : Network).interaction =
      .panningScreen ⟨0, 0⟩ ⟨0, 0⟩ ∧
    (({ Network.new with interaction := .panningScreen ⟨0, 0⟩ ⟨0, 0⟩ } : Network).update
        (.mouse (.buttonReleased .left)) ⟨0, 0, 800, 600⟩ .unavailable).network.interaction =
      Interaction.none ∧
    Interaction.none ≠ Interaction.panningScreen ⟨0, 0⟩ ⟨0, 0⟩ := by
  refine ⟨rfl, rfl, rfl, by simp⟩

/-- C4 (amended): an event delivered without a cursor position is reported
`Ignored` with no message and leaves translation, scaling, node store and
render cache unchanged; every event except a button release leaves the
whole state unchanged, while a button release still resets the interaction
to Idle (the release prelude runs before the bounds check). -/
theorem out_of_bounds_amended (n : Network) (e : Event) (b : Rect) (c : Cursor)
    (h : c.position_in b = Option.none) :
    (n.update e b c).status = .ignored ∧
    (n.update e b c).message = Option.none ∧
    (n.update e b c).network = n.release_step e ∧
    (n.update e b c).network.translation = n.translation ∧
    (n.update e b c).network.scaling = n.scaling ∧
    (n.update e b c).network.nodes = n.nodes ∧
    (n.update e b c).network.nodes_cache = n.nodes_cache ∧
    (∀ btn, e = .mouse (.buttonReleased btn) →
      (n.update e b c).network.interaction = .none) ∧
    ((∀ btn, e ≠ .mouse (.buttonReleased btn)) → (n.update e b c).network = n) := by
  have hupd : n.update e b c = ⟨n.release_step e, .ignored, Option.none⟩ := by
    simp [update, h]
  rw [hupd]
  refine ⟨rfl, rfl, rfl, release_step_translation n e, release_step_scaling n e,
    release_step_nodes n e, release_step_cache n e, ?_, ?_⟩
  · rintro btn rfl; rfl
  · intro hne
    cases e with
    | keyboard => rfl
    | mouse me =>
      cases me <;> try rfl
      exact absurd rfl (hne _)

/-- Witness for C4 (amended): an unavailable cursor and a cursor-move event
while panning the screen. -/
theorem out_of_bounds_amended_witness :
    Cursor.unavailable.position_in ⟨0, 0, 800, 600⟩ = Option.none ∧
    (({ Network.new with interaction := .panningScreen ⟨0, 0⟩ ⟨0, 0⟩ } : Network).update
        (.mouse (.cursorMoved ⟨450, 350⟩)) ⟨0, 0, 800, 600⟩ .unavailable).status = .ignored ∧
    (({ Network.new with interaction := .panningScreen ⟨0, 0⟩ ⟨0, 0⟩ } : Network).update
        (.mouse (.cursorMoved ⟨450, 350⟩)) ⟨0, 0, 800, 600⟩ .unavailable).network =
      { Network.new with interaction := .panningScreen ⟨0, 0⟩ ⟨0, 0⟩ } :=
  ⟨rfl,
   (out_of_bounds_amended { Network.new with interaction := .panningScreen ⟨0, 0⟩ ⟨0, 0⟩ }
     (.mouse (.cursorMoved ⟨450, 350⟩)) ⟨0, 0, 800, 600⟩ .unavailable rfl).1,
   (out_of_bounds_amended { Network.new with interaction := .panningScreen ⟨0, 0⟩ ⟨0, 0⟩ }
     (.mouse (.cursorMoved ⟨450, 350⟩)) ⟨0, 0, 800, 600⟩ .unavailable rfl).2.2.2.2.2.2.2.2
     (fun btn hbtn => by cases hbtn)⟩

/-- C2 counterexample: from the initial state (scaling 1), a wheel step of
`y = 15` at the screen point 100 px right of center scales to 3/2 with no
clamping, yet the world point under the cursor moves from x = 100 to
x = 350/3: the re-centering is not exact away from the clamp boundary. -/
theorem zoom_recenter_cex :
    (Cursor.available ⟨500, 300⟩).position_in ⟨0, 0, 800, 600⟩ = some ⟨500, 300⟩ ∧
    Network.new.scaling = 1 ∧
    (Network.new.update (.mouse (.wheelScrolled (.lines 0 15))) ⟨0, 0, 800, 600⟩
      (.available ⟨500, 300⟩)).network.scaling = 3 / 2 ∧
    Network.new.scaling * (1 + 15 / 30) = 3 / 2 ∧
    MIN_SCALING < 3 / 2 ∧ (3 / 2 : ℚ) < MAX_SCALING ∧
    Network.new.project ⟨500, 300⟩ (Rect.size ⟨0, 0, 800, 600⟩) ≠
      (Network.new.update (.mouse (.wheelScrolled (.lines 0 15))) ⟨0, 0, 800, 600⟩
        (.available ⟨500, 300⟩)).network.project ⟨500, 300⟩ (Rect.size ⟨0, 0, 800, 600⟩) := by
  refine ⟨?_, rfl, ?_, by norm_num [new], by norm_num [MIN_SCALING], by norm_num [MAX_SCALING], ?_⟩
  · norm_num [Cursor.position_in, Cursor.is_over, Cursor.position_from, Rect.contains,
      Rect.position]
  · norm_num [update, release_step, on_wheel_scrolled, Cursor.position_in, Cursor.is_over,
      Cursor.position_from, Rect.contains, Rect.position, Rect.center, Rect.size,
      MIN_SCALING, MAX_SCALING, get_node_at_screen, project, visible_region, List.find?,
      new, min_def, max_def]
  · norm_num [update, release_step, on_wheel_scrolled, Cursor.position_in, Cursor.is_over,
      Cursor.position_from, Rect.contains, Rect.position, Rect.center, Rect.size,
      MIN_SCALING, MAX_SCALING, get_node_at_screen, project, visible_region, List.find?,
      new, min_def, max_def]

/-- C2 (amended): a guarded wheel step sets the scaling to
`clamp(s * (1 + y/30))` and updates the translation by the source's
formula `translation -= cursorOffsetFromCenter * (s' - s) / s²`; the world
point under the cursor is not fixed exactly but drifts by
`cursorOffsetFromCenter * (s' - s)² / (s² * s')` per axis, which vanishes
only at the bounds center or when the scaling is unchanged. -/
theorem zoom_recenter_amended (n : Network) (b : Rect) (q : Vec2) (delta : ScrollDelta)
    (hs : MIN_SCALING ≤ n.scaling ∧ n.scaling ≤ MAX_SCALING)
    (hin : b.contains q = true)
    (hg : (delta.y < 0 ∧ MIN_SCALING < n.scaling) ∨
          (0 < delta.y ∧ n.scaling < MAX_SCALING)) :
    (n.update (.mouse (.wheelScrolled delta)) b (.available q)).network.scaling =
      min (max (n.scaling * (1 + delta.y / 30)) MIN_SCALING) MAX_SCALING ∧
    (n.update (.mouse (.wheelScrolled delta)) b (.available q)).network.translation =
      n.translation - Vec2.mk
        ((q.x - b.center.x) *
          (min (max (n.scaling * (1 + delta.y / 30)) MIN_SCALING) MAX_SCALING - n.scaling) /
          (n.scaling * n.scaling))
        ((q.y - b.center.y) *
          (min (max (n.scaling * (1 + delta.y / 30)) MIN_SCALING) MAX_SCALING - n.scaling) /
          (n.scaling * n.scaling)) ∧
    ((n.update (.mouse (.wheelScrolled delta)) b (.available q)).network.project
        ⟨q.x - b.x, q.y - b.y⟩ b.size).x -
      (n.project ⟨q.x - b.x, q.y - b.y⟩ b.size).x =
      (q.x - b.center.x) *
        (min (max (n.scaling * (1 + delta.y / 30)) MIN_SCALING) MAX_SCALING - n.scaling) ^ 2 /
        (n.scaling ^ 2 * min (max (n.scaling * (1 + delta.y / 30)) MIN_SCALING) MAX_SCALING) ∧
    ((n.update (.mouse (.wheelScrolled delta)) b (.available q)).network.project
        ⟨q.x - b.x, q.y - b.y⟩ b.size).y -
      (n.project ⟨q.x - b.x, q.y - b.y⟩ b.size).y =
      (q.y - b.center.y) *
        (min (max (n.scaling * (1 + delta.y / 30)) MIN_SCALING) MAX_SCALING - n.scaling) ^ 2 /
        (n.scaling ^ 2 * min (max (n.scaling * (1 + delta.y / 30)) MIN_SCALING) MAX_SCALING) := by
  have hs0 : n.scaling ≠ 0 := ne_of_gt (lt_of_lt_of_le MIN_SCALING_pos hs.1)
  set s := n.scaling with hsdef
  set t := min (max (n.scaling * (1 + delta.y / 30)) MIN_SCALING) MAX_SCALING with htdef
  have hmint : MIN_SCALING ≤ t :=
    le_min (le_max_right _ _) (by norm_num [MIN_SCALING, MAX_SCALING])
  have ht0 : t ≠ 0 := ne_of_gt (lt_of_lt_of_le MIN_SCALING_pos hmint)
  have hq : (Cursor.available q).position_in b = some ⟨q.x - b.x, q.y - b.y⟩ := by
    simp [Cursor.position_in, Cursor.is_over, hin, Cursor.position_from, Rect.position]
  have hnet : (n.update (.mouse (.wheelScrolled delta)) b (.available q)).network =
      { n with
        scaling := t
        translation := n.translation - Vec2.mk ((q.x - b.center.x) * (t - s) / (s * s))
          ((q.y - b.center.y) * (t - s) / (s * s))
        nodes_cache := ⟨true⟩ } := by
    cases delta with
    | lines dx dy =>
      simp only [ScrollDelta.y_lines] at hg htdef
      simp [update, hq, release_step, on_wheel_scrolled, hg, Cursor.position_from,
        Cache.clear, ← htdef, ← hsdef]
    | pixels dx dy =>
      simp only [ScrollDelta.y_pixels] at hg htdef
      simp [update, hq, release_step, on_wheel_scrolled, hg, Cursor.position_from,
        Cache.clear, ← htdef, ← hsdef]
  rw [hnet]
  refine ⟨rfl, rfl, ?_, ?_⟩
  · simp only [project, visible_region, Rect.size, Rect.center, Vec2.sub_x, Vec2.sub_y]
    field_simp
    ring
  · simp only [project, visible_region, Rect.size, Rect.center, Vec2.sub_x, Vec2.sub_y]
    field_simp
    ring

/-- Witness for C2 (amended) at the counterexample's concrete input. -/
theorem zoom_recenter_amended_witness :
    (MIN_SCALING ≤ Network.new.scaling ∧ Network.new.scaling ≤ MAX_SCALING) ∧
    Rect.contains ⟨0, 0, 800, 600⟩ ⟨500, 300⟩ = true ∧
    (((ScrollDelta.lines 0 15).y < 0 ∧ MIN_SCALING < Network.new.scaling) ∨
      (0 < (ScrollDelta.lines 0 15).y ∧ Network.new.scaling < MAX_SCALING)) ∧
    ((Network.new.update (.mouse (.wheelScrolled (.lines 0 15))) ⟨0, 0, 800, 600⟩
        (.available ⟨500, 300⟩)).network.scaling =
      min (max (Network.new.scaling * (1 + (ScrollDelta.lines 0 15).y / 30)) MIN_SCALING)
        MAX_SCALING ∧
    (Network.new.update (.mouse (.wheelScrolled (.lines 0 15))) ⟨0, 0, 800, 600⟩
        (.available ⟨500, 300⟩)).network.translation =
      Network.new.translation - Vec2.mk
        (((Vec2.mk 500 300).x - (Rect.center ⟨0, 0, 800, 600⟩).x) *
          (min (max (Network.new.scaling * (1 + (ScrollDelta.lines 0 15).y / 30)) MIN_SCALING)
            MAX_SCALING - Network.new.scaling) /
          (Network.new.scaling * Network.new.scaling))
        (((Vec2.mk 500 300).y - (Rect.center ⟨0, 0, 800, 600⟩).y) *
          (min (max (Network.new.scaling * (1 + (ScrollDelta.lines 0 15).y / 30)) MIN_SCALING)
            MAX_SCALING - Network.new.scaling) /
          (Network.new.scaling * Network.new.scaling)) ∧
    ((Network.new.update (.mouse (.wheelScrolled (.lines 0 15))) ⟨0, 0, 800, 600⟩
        (.available ⟨500, 300⟩)).network.project
        ⟨(Vec2.mk 500 300).x - (Rect.mk 0 0 800 600).x,
         (Vec2.mk 500 300).y - (Rect.mk 0 0 800 600).y⟩ (Rect.size ⟨0, 0, 800, 600⟩)).x -
      (Network.new.project
        ⟨(Vec2.mk 500 300).x - (Rect.mk 0 0 800 600).x,
         (Vec2.mk 500 300).y - (Rect.mk 0 0 800 600).y⟩ (Rect.size ⟨0, 0, 800, 600⟩)).x =
      ((Vec2.mk 500 300).x - (Rect.center ⟨0, 0, 800, 600⟩).x) *
        (min (max (Network.new.scaling * (1 + (ScrollDelta.lines 0 15).y / 30)) MIN_SCALING)
          MAX_SCALING - Network.new.scaling) ^ 2 /
        (Network.new.scaling ^ 2 *
          min (max (Network.new.scaling * (1 + (ScrollDelta.lines 0 15).y / 30)) MIN_SCALING)
            MAX_SCALING) ∧
    ((Network.new.update (.mouse (.wheelScrolled (.lines 0 15))) ⟨0, 0, 800, 600⟩
        (.available ⟨500, 300⟩)).network.project
        ⟨(Vec2.mk 500 300).x - (Rect.mk 0 0 800 600).x,
         (Vec2.mk 500 300).y - (Rect.mk 0 0 800 600).y⟩ (Rect.size ⟨0, 0, 800, 600⟩)).y -
      (Network.new.project
        ⟨(Vec2.mk 500 300).x - (Rect.mk 0 0 800 600).x,
         (Vec2.mk 500 300).y - (Rect.mk 0 0 800 600).y⟩ (Rect.size ⟨0, 0, 800, 600⟩)).y =
      ((Vec2.mk 500 300).y - (Rect.center ⟨0, 0, 800, 600⟩).y) *
        (min (max (Network.new.scaling * (1 + (ScrollDelta.lines 0 15).y / 30)) MIN_SCALING)
          MAX_SCALING - Network.new.scaling) ^ 2 /
        (Network.new.scaling ^ 2 *
          min (max (Network.new.scaling * (1 + (ScrollDelta.lines 0 15).y / 30)) MIN_SCALING)
            MAX_SCALING)) :=
  ⟨by norm_num [MIN_SCALING, MAX_SCALING, new],
   by norm_num [Rect.contains],
   Or.inr (by norm_num [new, MAX_SCALING]),
   zoom_recenter_amended Network.new ⟨0, 0, 800, 600⟩ ⟨500, 300⟩ (.lines 0 15)
     (by norm_num [MIN_SCALING, MAX_SCALING, new])
     (by norm_num [Rect.contains])
     (Or.inr (by norm_num [new, MAX_SCALING]))⟩

/-- C6: A left press with the cursor in bounds: if the projected cursor hits
a node (first in store order), that node's selection flag becomes true and
every other node is untouched (selection is not exclusive); if it hits no
node, every node's selection flag becomes false and the interaction remains
Idle. Node ids are assumed unique within the store (data-model invariant). -/
theorem left_press_selection (n : Network) (b : Rect) (c : Cursor) (cp : Vec2)
    (hcp : c.position_in b = some cp)
    (hnodup : (n.nodes.map Node.id).Nodup)
    (hidle : n.interaction = .none) :
    (∀ nd, n.nodes.find? (fun x => x.bounds.contains (n.project cp b.size)) = some nd →
      ∃ i, n.nodes.get? i = some nd ∧
        (n.update (.mouse (.buttonPressed .left)) b c).network.nodes =
          n.nodes.set i (nd.set_selected true) ∧
        (n.update (.mouse (.buttonPressed .left)) b c).network.nodes.get? i =
          some (nd.set_selected true) ∧
        (nd.set_selected true).is_selected = true ∧
        (∀ j, j ≠ i →
          (n.update (.mouse (.buttonPressed .left)) b c).network.nodes.get? j =
            n.nodes.get? j)) ∧
    (n.nodes.find? (fun x => x.bounds.contains (n.project cp b.size)) = Option.none →
      (∀ nd ∈ (n.update (.mouse (.buttonPressed .left)) b c).network.nodes,
        nd.is_selected = false) ∧
      (n.update (.mouse (.buttonPressed .left)) b c).network.interaction = .none) := by
  constructor
  · intro nd hfind
    have hmem : nd ∈ n.nodes := List.mem_of_find?_eq_some hfind
    have hfid : n.nodes.find? (fun x => x.id == nd.id) = some nd :=
      find?_id_of_nodup hnodup hmem
    have hhit : n.get_node_at_screen (n.project cp b.size) = some nd.id := by
      simp [get_node_at_screen, hfind]
    obtain ⟨i, hi, hget, hset⟩ :=
      updateFirst_eq_set (f := fun x => x.set_selected true) hfid
    have hr : (n.update (.mouse (.buttonPressed .left)) b c).network.nodes =
        n.nodes.set i (nd.set_selected true) := by
      simp [update, hcp, release_step, on_button_pressed, hhit, hfid, hset]
    refine ⟨i, ?_, hr, ?_, rfl, ?_⟩
    · rw [← hget]; exact List.get?_eq_get hi
    · rw [hr]; exact List.get?_set_eq_of_lt _ (by simpa using hi)
    · intro j hj
      rw [hr]; exact List.get?_set_ne _ _ (fun h => hj h.symm)
  · intro hnone
    have hhit : n.get_node_at_screen (n.project cp b.size) = Option.none := by
      simp [get_node_at_screen, hnone]
    have hr : (n.update (.mouse (.buttonPressed .left)) b c).network.nodes =
        n.nodes.map (fun x => x.set_selected false) := by
      simp [update, hcp, release_step, on_button_pressed, hhit, unselect_all_nodes]
    constructor
    · intro nd hnd
      rw [hr] at hnd
      obtain ⟨m, hm, rfl⟩ := List.mem_map.mp hnd
      rfl
    · simp [update, hcp, release_step, on_button_pressed, hhit, unselect_all_nodes, hidle]

/-- Witness for C6 at the initial store: the press at world point (50, 50)
hits the unique node. -/
theorem left_press_selection_witness :
    (Cursor.available ⟨450, 350⟩).position_in ⟨0, 0, 800, 600⟩ = some ⟨450, 350⟩ ∧
    (Network.new.nodes.map Node.id).Nodup ∧
    Network.new.interaction = .none ∧
    ((∀ nd, Network.new.nodes.find?
        (fun x => x.bounds.contains
          (Network.new.project ⟨450, 350⟩ (Rect.size ⟨0, 0, 800, 600⟩))) = some nd →
      ∃ i, Network.new.nodes.get? i = some nd ∧
        (Network.new.update (.mouse (.buttonPressed .left)) ⟨0, 0, 800, 600⟩
          (.available ⟨450, 350⟩)).network.nodes =
          Network.new.nodes.set i (nd.set_selected true) ∧
        (Network.new.update (.mouse (.buttonPressed .left)) ⟨0, 0, 800, 600⟩
          (.available ⟨450, 350⟩)).network.nodes.get? i = some (nd.set_selected true) ∧
        (nd.set_selected true).is_selected = true ∧
        (∀ j, j ≠ i →
          (Network.new.update (.mouse (.buttonPressed .left)) ⟨0, 0, 800, 600⟩
            (.available ⟨450, 350⟩)).network.nodes.get? j = Network.new.nodes.get? j)) ∧
    (Network.new.nodes.find?
        (fun x => x.bounds.contains
          (Network.new.project ⟨450, 350⟩ (Rect.size ⟨0, 0, 800, 600⟩))) = Option.none →
      (∀ nd ∈ (Network.new.update (.mouse (.buttonPressed .left)) ⟨0, 0, 800, 600⟩
          (.available ⟨450, 350⟩)).network.nodes, nd.is_selected = false) ∧
      (Network.new.update (.mouse (.buttonPressed .left)) ⟨0, 0, 800, 600⟩
        (.available ⟨450, 350⟩)).network.interaction = .none)) :=
  ⟨by norm_num [Cursor.position_in, Cursor.is_over, Cursor.position_from, Rect.contains,
     Rect.position],
   by simp [new],
   rfl,
   left_press_selection Network.new ⟨0, 0, 800, 600⟩ (.available ⟨450, 350⟩) ⟨450, 350⟩
     (by norm_num [Cursor.position_in, Cursor.is_over, Cursor.position_from, Rect.contains,
       Rect.position])
     (by simp [new]) rfl⟩

/-- C5: Node-drag postcondition. From Idle at scaling `s`, a left press at a
screen point whose projection hits node `nd` puts the machine in
`PanningNode` recording the node's id, start position and cursor start; a
subsequent cursor move by screen vector `d` leaves the node (still
selected) at `(x + d.x/s, y + d.y/s)`; a button release returns to Idle
with the node store untouched (node still selected). -/
theorem node_drag (n : Network) (b : Rect) (c1 d p : Vec2) (nd : Node)
    (hidle : n.interaction = .none)
    (hs : n.scaling ≠ 0)
    (hin1 : (Cursor.available c1).position_in b = some p)
    (hin2 : (Cursor.available (c1 + d)).position_in b = some (p + d))
    (hhit : n.nodes.find? (fun x => x.bounds.contains (n.project p b.size)) = some nd)
    (hid : n.nodes.find? (fun x => x.id == nd.id) = some nd) :
    (n.update (.mouse (.buttonPressed .left)) b (.available c1)).network.interaction =
      .panningNode nd.id ⟨nd.bounds.x, nd.bounds.y⟩ p ∧
    (n.update (.mouse (.buttonPressed .left)) b (.available c1)).network.nodes.find?
      (fun x => x.id == nd.id) = some (nd.set_selected true) ∧
    ((n.update (.mouse (.buttonPressed .left)) b (.available c1)).network.update
        (.mouse (.cursorMoved (c1 + d))) b (.available (c1 + d))).network.nodes.find?
      (fun x => x.id == nd.id) =
      some ((nd.set_selected true).set_new_pos
        ⟨nd.bounds.x + d.x / n.scaling, nd.bounds.y + d.y / n.scaling⟩) ∧
    ((nd.set_selected true).set_new_pos
      ⟨nd.bounds.x + d.x / n.scaling, nd.bounds.y + d.y / n.scaling⟩).is_selected = true ∧
    (((n.update (.mouse (.buttonPressed .left)) b (.available c1)).network.update
        (.mouse (.cursorMoved (c1 + d))) b (.available (c1 + d))).network.update
      (.mouse (.buttonReleased .left)) b (.available (c1 + d))).network.interaction =
      .none ∧
    (((n.update (.mouse (.buttonPressed .left)) b (.available c1)).network.update
        (.mouse (.cursorMoved (c1 + d))) b (.available (c1 + d))).network.update
      (.mouse (.buttonReleased .left)) b (.available (c1 + d))).network.nodes =
      ((n.update (.mouse (.buttonPressed .left)) b (.available c1)).network.update
        (.mouse (.cursorMoved (c1 + d))) b (.available (c1 + d))).network.nodes := by
  have hga : n.get_node_at_screen (n.project p b.size) = some nd.id := by
    simp [get_node_at_screen, hhit]
  have h1 : (n.update (.mouse (.buttonPressed .left)) b (.available c1)).network =
      { n with
        interaction := .panningNode nd.id (Vec2.mk nd.bounds.x nd.bounds.y) p
        nodes := updateFirst (fun x => x.id == nd.id) (fun x => x.set_selected true) n.nodes
        nodes_cache := ⟨true⟩ } := by
    simp [update, hin1, release_step, on_button_pressed, hga, hid, Cache.clear]
  have h1find : (updateFirst (fun x => x.id == nd.id) (fun x => x.set_selected true)
      n.nodes).find? (fun x => x.id == nd.id) = some (nd.set_selected true) :=
    find?_updateFirst hid (by simp [Node.set_selected])
  have hnp : Vec2.mk nd.bounds.x nd.bounds.y + (p + d - p) * n.scaling⁻¹ =
      Vec2.mk (nd.bounds.x + d.x / n.scaling) (nd.bounds.y + d.y / n.scaling) := by
    cases p with
    | mk px py =>
      cases d with
      | mk dx dy =>
        simp only [Vec2.mk_add_mk, Vec2.mk_sub_mk, Vec2.mk_smul, Vec2.mk.injEq]
        constructor <;> (field_simp; try ring)
  have h2 : ((n.update (.mouse (.buttonPressed .left)) b (.available c1)).network.update
      (.mouse (.cursorMoved (c1 + d))) b (.available (c1 + d))).network =
      { n with
        interaction := .panningNode nd.id (Vec2.mk nd.bounds.x nd.bounds.y) p
        nodes := updateFirst (fun x => x.id == nd.id)
          (fun x => x.set_new_pos
            (Vec2.mk (nd.bounds.x + d.x / n.scaling) (nd.bounds.y + d.y / n.scaling)))
          (updateFirst (fun x => x.id == nd.id) (fun x => x.set_selected true) n.nodes)
        nodes_cache := ⟨true⟩ } := by
    rw [h1]
    simp [update, hin2, release_step, on_cursor_moved, h1find, Cache.clear, hnp]
  have h2find : (updateFirst (fun x => x.id == nd.id)
      (fun x => x.set_new_pos
        (Vec2.mk (nd.bounds.x + d.x / n.scaling) (nd.bounds.y + d.y / n.scaling)))
      (updateFirst (fun x => x.id == nd.id) (fun x => x.set_selected true)
        n.nodes)).find? (fun x => x.id == nd.id) =
      some ((nd.set_selected true).set_new_pos
        (Vec2.mk (nd.bounds.x + d.x / n.scaling) (nd.bounds.y + d.y / n.scaling))) :=
    find?_updateFirst h1find (by simp [Node.set_new_pos, Node.set_selected])
  have h3 : (((n.update (.mouse (.buttonPressed .left)) b (.available c1)).network.update
      (.mouse (.cursorMoved (c1 + d))) b (.available (c1 + d))).network.update
      (.mouse (.buttonReleased .left)) b (.available (c1 + d))).network =
      { (((n.update (.mouse (.buttonPressed .left)) b (.available c1)).network.update
          (.mouse (.cursorMoved (c1 + d))) b (.available (c1 + d))).network) with
        interaction := .none } := by
    rw [h2]
    simp [update, hin2, release_step]
  refine ⟨?_, ?_, ?_, rfl, ?_, ?_⟩
  · rw [h1]
  · rw [h1]; exact h1find
  · rw [h2]; exact h2find
  · rw [h3]
  · rw [h3]

/-- Witness for C5: the spec's concrete scenario. One node at
(0, 0, 100, 100), viewport 800×600, scaling 1, translation (0, 0); a click
at the screen point projecting to world (50, 50) selects the node and
starts `PanningNode`; a move by (20, 0) puts the node at (20, 0, 100, 100);
release returns to Idle with the node still selected. -/
theorem node_drag_witness :
    Network.new.interaction = .none ∧
    Network.new.scaling ≠ 0 ∧
    (Cursor.available ⟨450, 350⟩).position_in ⟨0, 0, 800, 600⟩ = some ⟨450, 350⟩ ∧
    (Cursor.available (⟨450, 350⟩ + ⟨20, 0⟩)).position_in ⟨0, 0, 800, 600⟩ =
      some (⟨450, 350⟩ + ⟨20, 0⟩) ∧
    Network.new.project ⟨450, 350⟩ (Rect.size ⟨0, 0, 800, 600⟩) = ⟨50, 50⟩ ∧
    Network.new.nodes.find?
      (fun x => x.bounds.contains (Network.new.project ⟨450, 350⟩
        (Rect.size ⟨0, 0, 800, 600⟩))) =
      some { id := 0, bounds := ⟨0, 0, 100, 100⟩, color := Color.black,
             is_selected := false } ∧
    Network.new.nodes.find? (fun x => x.id == 0) =
      some { id := 0, bounds := ⟨0, 0, 100, 100⟩, color := Color.black,
             is_selected := false } ∧
    (Network.new.update (.mouse (.buttonPressed .left)) ⟨0, 0, 800, 600⟩
      (.available ⟨450, 350⟩)).network.interaction =
      .panningNode 0 ⟨0, 0⟩ ⟨450, 350⟩ ∧
    (Network.new.update (.mouse (.buttonPressed .left)) ⟨0, 0, 800, 600⟩
      (.available ⟨450, 350⟩)).network.nodes =
      [{ id := 0, bounds := ⟨0, 0, 100, 100⟩, color := Color.black, is_selected := true }] ∧
    ((Network.new.update (.mouse (.buttonPressed .left)) ⟨0, 0, 800, 600⟩
        (.available ⟨450, 350⟩)).network.update
      (.mouse (.cursorMoved (⟨450, 350⟩ + ⟨20, 0⟩))) ⟨0, 0, 800, 600⟩
      (.available (⟨450, 350⟩ + ⟨20, 0⟩))).network.nodes =
      [{ id := 0, bounds := ⟨20, 0, 100, 100⟩, color := Color.black, is_selected := true }] ∧
    (((Network.new.update (.mouse (.buttonPressed .left)) ⟨0, 0, 800, 600⟩
        (.available ⟨450, 350⟩)).network.update
      (.mouse (.cursorMoved (⟨450, 350⟩ + ⟨20, 0⟩))) ⟨0, 0, 800, 600⟩
      (.available (⟨450, 350⟩ + ⟨20, 0⟩))).network.update
      (.mouse (.buttonReleased .left)) ⟨0, 0, 800, 600⟩
      (.available (⟨450, 350⟩ + ⟨20, 0⟩))).network.interaction = .none ∧
    (((Network.new.update (.mouse (.buttonPressed .left)) ⟨0, 0, 800, 600⟩
        (.available ⟨450, 350⟩)).network.update
      (.mouse (.cursorMoved (⟨450, 350⟩ + ⟨20, 0⟩))) ⟨0, 0, 800, 600⟩
      (.available (⟨450, 350⟩ + ⟨20, 0⟩))).network.update
      (.mouse (.buttonReleased .left)) ⟨0, 0, 800, 600⟩
      (.available (⟨450, 350⟩ + ⟨20, 0⟩))).network.nodes =
      [{ id := 0, bounds := ⟨20, 0, 100, 100⟩, color := Color.black, is_selected := true }] := by
  have hin1 : (Cursor.available ⟨450, 350⟩).position_in ⟨0, 0, 800, 600⟩ =
      some ⟨450, 350⟩ := by
    norm_num [Cursor.position_in, Cursor.is_over, Cursor.position_from, Rect.contains,
      Rect.position]
  have hin2 : (Cursor.available ((⟨450, 350⟩ : Vec2) + ⟨20, 0⟩)).position_in
      ⟨0, 0, 800, 600⟩ = some ((⟨450, 350⟩ : Vec2) + ⟨20, 0⟩) := by
    norm_num [Cursor.position_in, Cursor.is_over, Cursor.position_from, Rect.contains,
      Rect.position]
  have hhit : Network.new.nodes.find?
      (fun x => x.bounds.contains (Network.new.project ⟨450, 350⟩
        (Rect.size ⟨0, 0, 800, 600⟩))) =
      some { id := 0, bounds := ⟨0, 0, 100, 100⟩, color := Color.black,
             is_selected := false } := by
    norm_num [new, List.find?, Rect.contains, project, visible_region, Rect.size]
  have hid : Network.new.nodes.find? (fun x => x.id == (0 : ℕ)) =
      some { id := 0, bounds := ⟨0, 0, 100, 100⟩, color := Color.black,
             is_selected := false } := by
    simp [new, List.find?]
  have happ := node_drag Network.new ⟨0, 0, 800, 600⟩ ⟨450, 350⟩ ⟨20, 0⟩ ⟨450, 350⟩
    { id := 0, bounds := ⟨0, 0, 100, 100⟩, color := Color.black, is_selected := false }
    rfl (by norm_num [new]) hin1 hin2 hhit hid
  refine ⟨rfl, by norm_num [new], hin1, hin2, ?_, hhit, hid, happ.1, ?_, ?_, ?_, ?_⟩
  · norm_num [new, project, visible_region, Rect.size]
  · norm_num [update, release_step, on_button_pressed, Cursor.position_in, Cursor.is_over,
      Cursor.position_from, Rect.contains, Rect.position, Rect.size, get_node_at_screen,
      project, visible_region, List.find?, new, updateFirst, unselect_all_nodes,
      Node.set_selected, Cache.clear]
  · norm_num [update, release_step, on_button_pressed, on_cursor_moved,
      Cursor.position_in, Cursor.is_over, Cursor.position_from, Rect.contains,
      Rect.position, Rect.center, Rect.size, MIN_SCALING, MAX_SCALING,
      get_node_at_screen, project, visible_region, List.find?, new, updateFirst,
      unselect_all_nodes, Node.set_selected, Node.set_new_pos, Cache.clear]
  · norm_num [update, release_step, on_button_pressed, on_cursor_moved,
      Cursor.position_in, Cursor.is_over, Cursor.position_from, Rect.contains,
      Rect.position, Rect.center, Rect.size, MIN_SCALING, MAX_SCALING,
      get_node_at_screen, project, visible_region, List.find?, new, updateFirst,
      unselect_all_nodes, Node.set_selected, Node.set_new_pos, Cache.clear]
  · norm_num [update, release_step, on_button_pressed, on_cursor_moved,
      Cursor.position_in, Cursor.is_over, Cursor.position_from, Rect.contains,
      Rect.position, Rect.center, Rect.size, MIN_SCALING, MAX_SCALING,
      get_node_at_screen, project, visible_region, List.find?, new, updateFirst,
      unselect_all_nodes, Node.set_selected, Node.set_new_pos, Cache.clear]

end Network

end Sword
